import Mathlib

/-!
# Shallow embedding of the nsqd HTTP message-ingestion gateway

This file embeds the HTTP handlers of the repository's two gateway files
(`nsqdserver/http.go` and the older `nsqd`-package variant of the same file)
and proves properties of the spec about them.

Conventions of the embedding:
* byte strings are `List Nat` (`Bytes`);
* the HTTP request body is a pure byte stream; `io.LimitReader(r, n)` becomes
  `List.take n`; `bufio.ReadBytes('\n')` is modelled by consuming bytes up to
  and including the first `10` (newline), end of list standing for `io.EOF`;
* Go's `http_api.Err{code, msg}` becomes the structure `HErr`;
* external collaborators (the queue engine's put, the partition-ownership
  check, the inter-node forward) are inputs: their outcomes are fields of
  `PubEnv`, and the calls the handler makes to them are recorded in a `Trace`;
* `req.ContentLength` is an `Int` (Go uses `-1` for an absent length).
-/

namespace NsqGateway

abbrev Bytes := List Nat

/-- An HTTP-level error as produced by the handlers: status code and body. -/
structure HErr where
  code : Nat
  msg : String
deriving Repr, DecidableEq

/-- Outcome of one `bufio.Reader.ReadBytes('\n')` call on a byte stream:
the returned block (up to and including the first newline), the remaining
stream, and whether `io.EOF` was reported (no newline before end of data). -/
def readBytesNL : Bytes → Bytes × Bytes × Bool
  | [] => ([], [], true)
  | b :: rest =>
    if b = 10 then ([10], rest, false)
    else
      match readBytesNL rest with
      | (blk, rem, eof) => (b :: blk, rem, eof)

/-- The body of one iteration of `doMPUB`'s text loop, given the block just
returned by `ReadBytes`: add the block's length to `total` and fail
`BODY_TOO_BIG` when it reaches `readMax`; strip one trailing newline; skip an
empty block; fail `MSG_TOO_BIG` when the stripped block exceeds `maxMsgSize`;
otherwise append the block as a message.  Returns the new running total and
message list. -/
def mpubBlockStep (maxMsgSize readMax total : Nat) (msgs : List Bytes)
    (block : Bytes) : Except HErr (Nat × List Bytes) :=
  let total' := total + block.length
  if total' = readMax then .error ⟨413, "BODY_TOO_BIG"⟩
  else
    let block' := if block.getLast? = some 10 then block.dropLast else block
    if block' = [] then .ok (total', msgs)
    else if maxMsgSize < block'.length then .error ⟨413, "MSG_TOO_BIG"⟩
    else .ok (total', msgs ++ [block'])

/-- `doMPUB`'s text-sub-format loop.  `acc` is the part of the current block
already consumed from the stream (the state inside `ReadBytes`); the second
argument is the unread remainder of the (already length-limited) stream.
A newline closes the current block and, when the block survives
`mpubBlockStep`, the loop continues; end of stream (`io.EOF`) processes the
final partial block and exits. -/
def mpubTextGo (maxMsgSize readMax : Nat) :
    Bytes → Bytes → Nat → List Bytes → Except HErr (List Bytes)
  | acc, [], total, msgs =>
    match mpubBlockStep maxMsgSize readMax total msgs acc with
    | .error e => .error e
    | .ok (_, msgs') => .ok msgs'
  | acc, 10 :: rest, total, msgs =>
    match mpubBlockStep maxMsgSize readMax total msgs (acc ++ [10]) with
    | .error e => .error e
    | .ok (total', msgs') => mpubTextGo maxMsgSize readMax [] rest total' msgs'
  | acc, b :: rest, total, msgs => mpubTextGo maxMsgSize readMax (acc ++ [b]) rest total msgs

/-- The whole text-sub-format batch decode of `doMPUB`: the body is read
through `io.LimitReader(req.Body, maxBodySize+1)` (hence `take`), and the
loop starts with an empty block, zero running total and no messages. -/
def mpubTextDecode (maxMsgSize maxBodySize : Nat) (stream : Bytes) :
    Except HErr (List Bytes) :=
  mpubTextGo maxMsgSize (maxBodySize + 1) [] (stream.take (maxBodySize + 1)) 0 []

example : mpubTextDecode 10 100 [97, 10, 10, 98, 10] = .ok [[97], [98]] := rfl
example : mpubTextDecode 10 100 [10, 10, 10] = .ok [] := rfl
example : mpubTextDecode 2 100 [97, 98, 99, 10] = .error ⟨413, "MSG_TOO_BIG"⟩ := rfl
example : mpubTextDecode 10 3 [97, 98, 10, 99, 100] = .error ⟨413, "BODY_TOO_BIG"⟩ := rfl

/-- Outcomes of the external collaborators a publish handler may call:
`isMaster` is the result of `s.ctx.checkForMasterWrite(topic)` (the
partition-ownership lookup), `putErr`/`putBatchErr` the error (if any) of the
queue engine's `PutMessage`/`PutMessages`, and `fwdErr` the error (if any) of
`s.ctx.forwardPutMessage`.  `none` means the call succeeds. -/
structure PubEnv where
  isMaster : Bool
  putErr : Option String
  putBatchErr : Option String
  fwdErr : Option String
deriving Repr, DecidableEq

/-- What a handler did to its collaborators: whether it started reading the
request body, the payloads passed to the engine's single put, the batches
passed to the engine's batch put, and the `(topicName, partition, payload)`
triples passed to the inter-node forward. -/
structure Trace where
  bodyRead : Bool
  putMsgs : List Bytes
  putBatches : List (List Bytes)
  fwds : List (String × Int × Bytes)
deriving Repr, DecidableEq

/-- The trace of a handler that called no collaborator and read no body byte. -/
def Trace.empty : Trace := ⟨false, [], [], []⟩

/-! ## The `nsqdserver` package's handlers (`src/nsqdserver/http.go`) -/

namespace Server

/-- `doPUB` of `nsqdserver/http.go`.  In order: reject `MSG_TOO_BIG` when the
declared `ContentLength` exceeds `MaxMsgSize`; reject `MSG_EMPTY` when it is
zero or negative (absent); resolve the topic from the query (before any body
byte is read); read exactly `ContentLength` bytes with
`io.ReadFull(io.LimitReader(req.Body, ContentLength+1), body)`, tolerating a
short read at end of stream (`body = body[:n]`); reject `MSG_EMPTY` on a
zero-length result; then route: when `checkForMasterWrite` says this node is
the master, call the engine's `PutMessage` (failure is a 503 carrying the
engine's message), otherwise call `forwardPutMessage(topicName, part, body)`
(failure is a 500 carrying the forwarder's message). -/
def doPUB (maxMsgSize : Nat) (cl : Int) (stream : Bytes) (topicFound : Bool)
    (tname : String) (tpart : Int) (env : PubEnv) : Except HErr String × Trace :=
  if cl > (maxMsgSize : Int) then (.error ⟨413, "MSG_TOO_BIG"⟩, .empty)
  else if cl ≤ 0 then (.error ⟨400, "MSG_EMPTY"⟩, .empty)
  else if ¬topicFound then (.error ⟨404, "TOPIC_NOT_FOUND"⟩, .empty)
  else
    let n := min stream.length cl.toNat
    let body := stream.take n
    if body = [] then (.error ⟨400, "MSG_EMPTY"⟩, { Trace.empty with bodyRead := true })
    else if env.isMaster then
      match env.putErr with
      | some e => (.error ⟨503, e⟩, ⟨true, [body], [], []⟩)
      | none => (.ok "OK", ⟨true, [body], [], []⟩)
    else
      match env.fwdErr with
      | some e => (.error ⟨500, e⟩, ⟨true, [], [], [(tname, tpart, body)]⟩)
      | none => (.ok "OK", ⟨true, [], [], [(tname, tpart, body)]⟩)

/-- `doMPUB` of `nsqdserver/http.go`, text sub-format (no `binary` query
flag).  In order: reject `BODY_TOO_BIG` when the declared `ContentLength`
exceeds `MaxBodySize`; resolve the topic; run the newline-delimited decode
loop over the body limited to `MaxBodySize+1` bytes; on decode success always
call the engine's `topic.PutMessages(msgs)` — there is no ownership check and
no forwarding on this path — surfacing a put failure as 503 `EXITING`. -/
def doMPUB (maxMsgSize maxBodySize : Nat) (cl : Int) (stream : Bytes)
    (topicFound : Bool) (env : PubEnv) : Except HErr String × Trace :=
  if cl > (maxBodySize : Int) then (.error ⟨413, "BODY_TOO_BIG"⟩, .empty)
  else if ¬topicFound then (.error ⟨404, "TOPIC_NOT_FOUND"⟩, .empty)
  else
    match mpubTextDecode maxMsgSize maxBodySize stream with
    | .error e => (.error e, { Trace.empty with bodyRead := true })
    | .ok msgs =>
      match env.putBatchErr with
      | some _ => (.error ⟨503, "EXITING"⟩, ⟨true, [], [msgs], []⟩)
      | none => (.ok "OK", ⟨true, [], [msgs], []⟩)

/-- Result of `ServeHTTP`: either an immediate rejection (status code and
response body, written before the router dispatches and before any body
byte is read) or dispatch to the router. -/
inductive ServeResult where
  | rejected (code : Nat) (body : String)
  | routed
deriving Repr, DecidableEq

/-- `ServeHTTP` of `nsqdserver/http.go`: when TLS is not enabled on this
listener but required by policy, respond 403 with the fixed body
`{"message": "TLS_REQUIRED"}` (the `httpsPort` argument is unused: this
variant's response carries no port); otherwise hand the request to the
router. -/
def serveHTTP (tlsEnabled tlsRequired : Bool) (httpsPort : Int) : ServeResult :=
  if ¬tlsEnabled ∧ tlsRequired then
    .rejected 403 "\x7b\"message\": \"TLS_REQUIRED\"\x7d"
  else .routed

end Server

/-! ## The `nsqd` package's handlers (`src/unnamed/part_000`) -/

namespace NsqdPkg

/-- `doPUB` of the `nsqd`-package variant.  In order: reject `MSG_TOO_BIG`
when the declared `ContentLength` exceeds `MaxMsgSize`; read the whole body
through `io.LimitReader(req.Body, MaxMsgSize+1)`; reject `MSG_TOO_BIG` when
exactly `MaxMsgSize+1` bytes came back; reject `MSG_EMPTY` on a zero-length
body; resolve the topic; call the engine's `topic.PutMessage` (failure is
503 `EXITING`).  This variant has no ownership check and no forwarding. -/
def doPUB (maxMsgSize : Nat) (cl : Int) (stream : Bytes) (topicFound : Bool)
    (env : PubEnv) : Except HErr String × Trace :=
  if cl > (maxMsgSize : Int) then (.error ⟨413, "MSG_TOO_BIG"⟩, .empty)
  else
    let readMax := maxMsgSize + 1
    let body := stream.take readMax
    if body.length = readMax then
      (.error ⟨413, "MSG_TOO_BIG"⟩, { Trace.empty with bodyRead := true })
    else if body = [] then
      (.error ⟨400, "MSG_EMPTY"⟩, { Trace.empty with bodyRead := true })
    else if ¬topicFound then
      (.error ⟨404, "TOPIC_NOT_FOUND"⟩, { Trace.empty with bodyRead := true })
    else
      match env.putErr with
      | some _ => (.error ⟨503, "EXITING"⟩, ⟨true, [body], [], []⟩)
      | none => (.ok "OK", ⟨true, [body], [], []⟩)

/-- `ServeHTTP` of the `nsqd`-package variant: as in the other package, but
the 403 response body interpolates the HTTPS listener's port
(`fmt.Sprintf` with `RealHTTPSAddr().Port`). -/
def serveHTTP (tlsEnabled tlsRequired : Bool) (httpsPort : Int) : Server.ServeResult :=
  if ¬tlsEnabled ∧ tlsRequired then
    .rejected 403
      ("\x7b\"message\": \"TLS_REQUIRED\", \"https_port\": " ++ toString httpsPort ++ "\x7d")
  else .routed

end NsqdPkg

/-! ## `doConfig` (identical in both gateway files) -/

/-- A runtime option value, as returned by the config endpoint. -/
inductive OptValue where
  | strs : List String → OptValue
  | flag : Bool → OptValue
  | int : Int → OptValue
  | str : String → OptValue
deriving Repr, DecidableEq

/-- The fields of the process-wide options snapshot that `doConfig` touches:
the three runtime-writable options of its `switch`, the size ceilings it
reads, and a representative further flag-tagged (readable, not writable)
field. -/
structure Options where
  nsqlookupdTCPAddresses : List String
  verbose : Bool
  logLevel : Int
  maxMsgSize : Nat
  maxBodySize : Nat
  broadcastAddress : String
deriving Repr, DecidableEq

/-- Modelled from the spec: `getOptByCfgName` walks the repository's
`Options` struct (declared outside the given source files) by reflection and
returns the field whose config name — the `cfg` tag, or the `flag` tag with
dashes replaced by underscores — matches `name`.  The registry below lists
the config names of the modelled fields. -/
def getOptByCfgName (opts : Options) (name : String) : Option OptValue :=
  if name = "nsqlookupd_tcp_addresses" then some (.strs opts.nsqlookupdTCPAddresses)
  else if name = "verbose" then some (.flag opts.verbose)
  else if name = "log_level" then some (.int opts.logLevel)
  else if name = "max_msg_size" then some (.int opts.maxMsgSize)
  else if name = "max_body_size" then some (.int opts.maxBodySize)
  else if name = "broadcast_address" then some (.str opts.broadcastAddress)
  else none

/-- The external `json.Unmarshal` decoders `doConfig` uses, one per target
field type; `none` is a parse failure. -/
structure Unmarshal where
  strs : Bytes → Option (List String)
  flag : Bytes → Option Bool
  int : Bytes → Option Int

/-- The process-wide configuration state: the current options snapshot
(readers always see a whole snapshot; `swapOpts` replaces it wholesale) and
how many times `triggerOptsNotification` has fired. -/
structure ConfigState where
  opts : Options
  notifications : Nat
deriving Repr, DecidableEq

/-- `doConfig`.  On PUT: read the body through
`io.LimitReader(req.Body, MaxMsgSize+1)`; reject `INVALID_VALUE` (413) when
exactly `MaxMsgSize+1` bytes came back or the body is empty; copy the current
snapshot, unmarshal the body into the named field of the copy — `verbose`,
`log_level` and `nsqlookupd_tcp_addresses` are the only writable names,
anything else is `INVALID_OPTION` (400), a parse failure is `INVALID_VALUE`
(400) — then `swapOpts` the copy in and `triggerOptsNotification`.  Finally
(for PUT and GET alike) look the name up in the now-current snapshot with
`getOptByCfgName` and return its value, or `INVALID_OPTION`.  Every failure
leaves the prior state untouched. -/
def doConfig (u : Unmarshal) (st : ConfigState) (isPUT : Bool) (opt : String)
    (stream : Bytes) : Except HErr OptValue × ConfigState :=
  if isPUT then
    let readMax := st.opts.maxMsgSize + 1
    let body := stream.take readMax
    if body.length = readMax ∨ body.length = 0 then
      (.error ⟨413, "INVALID_VALUE"⟩, st)
    else
      let newOpts : Except HErr Options :=
        if opt = "nsqlookupd_tcp_addresses" then
          match u.strs body with
          | none => .error ⟨400, "INVALID_VALUE"⟩
          | some v => .ok { st.opts with nsqlookupdTCPAddresses := v }
        else if opt = "verbose" then
          match u.flag body with
          | none => .error ⟨400, "INVALID_VALUE"⟩
          | some v => .ok { st.opts with verbose := v }
        else if opt = "log_level" then
          match u.int body with
          | none => .error ⟨400, "INVALID_VALUE"⟩
          | some v => .ok { st.opts with logLevel := v }
        else .error ⟨400, "INVALID_OPTION"⟩
      match newOpts with
      | .error e => (.error e, st)
      | .ok o =>
        let st' : ConfigState := ⟨o, st.notifications + 1⟩
        match getOptByCfgName st'.opts opt with
        | none => (.error ⟨400, "INVALID_OPTION"⟩, st')
        | some v => (.ok v, st')
  else
    match getOptByCfgName st.opts opt with
    | none => (.error ⟨400, "INVALID_OPTION"⟩, st)
    | some v => (.ok v, st)

/-! ## `doStats` filtering (identical in both gateway files) -/

/-- The per-channel slice of the stats snapshot. -/
structure ChannelStats where
  channelName : String
  depth : Int
  backendDepth : Int
  inFlightCount : Int
  deferredCount : Int
  requeueCount : Int
  timeoutCount : Int
  messageCount : Int
  paused : Bool
deriving Repr, DecidableEq

/-- The per-topic slice of the stats snapshot. -/
structure TopicStats where
  topicName : String
  depth : Int
  backendDepth : Int
  messageCount : Int
  channels : List ChannelStats
deriving Repr, DecidableEq

/-- The filtering step of `doStats`: when a topic name was given, scan for
the first topic entry with that exact name; inside it, when a channel name
was also given, scan for the first channel entry with that exact name and,
if found, replace the entry's channel list with just that channel; then
replace the whole snapshot with just that topic entry.  When no topic entry
matches (and when no topic name was given) the snapshot is left as it is. -/
def filterStats (topicName channelName : String) (stats : List TopicStats) :
    List TopicStats :=
  if 0 < topicName.length then
    match stats.find? (fun t => t.topicName = topicName) with
    | some t =>
      let t' :=
        if 0 < channelName.length then
          match t.channels.find? (fun c => c.channelName = channelName) with
          | some c => { t with channels := [c] }
          | none => t
        else t
      [t']
    | none => stats
  else stats

/-! ## Buffer-pool accounting of the publish handlers -/

/-- The exit paths of `doPUB` (`nsqdserver/http.go`), in source order. -/
inductive PubExit where
  | tooBig | emptyLength | topicMissing | readError | emptyBody
  | putFail | fwdFail | accepted
deriving Repr, DecidableEq

/-- Pool accounting of `doPUB`: the handler calls `topic.BufferPoolGet` only
after the declared-length and topic checks, and the immediately following
`defer topic.BufferPoolPut(b)` returns that one buffer on every later exit
path.  Given the number of pool buffers checked out before the call, returns
the number checked out after it. -/
def doPUBPool (checkedOut : Nat) (exit : PubExit) : Nat :=
  match exit with
  | .tooBig => checkedOut
  | .emptyLength => checkedOut
  | .topicMissing => checkedOut
  | _ => checkedOut + 1 - 1

/-- Modelled from the spec (and the caller in `doMPUB`): `readMPUB` — defined
outside the given source files — leases one pool buffer per decoded message
and returns every buffer it leased to its caller in `buffers`, on success and
on error alike; the caller's deferred loop puts each of them back.  Given the
prior checked-out count and the number of buffers the decode leased, returns
the count after the handler exits (on any path past the decode call). -/
def doMPUBBinaryPool (checkedOut leased : Nat) : Nat :=
  checkedOut + leased - leased

/-- The exit paths of `doMPUB`'s text branch after the pooled reader is
obtained. -/
inductive MPubTextExit where
  | decodeFail | putFail | accepted
deriving Repr, DecidableEq

/-- Pool accounting of `doMPUB`'s text branch: `nsqd.NewBufioReader` takes
one pooled reader and the immediately following
`defer nsqd.PutBufioReader(rdr)` returns it on every exit path. -/
def doMPUBTextPool (checkedOut : Nat) (exit : MPubTextExit) : Nat :=
  match exit with
  | _ => checkedOut + 1 - 1

/-! ## Claims -/

/-- C2: the `nsqd`-package single-message publish decode reads at most
`maxMsgSize + 1` bytes from the body — its outcome depends only on the first
`maxMsgSize + 1` bytes of the stream; when the limited read returns exactly
`maxMsgSize + 1` bytes it fails 413 `MSG_TOO_BIG`, and when the body is
zero-length it fails 400 `MSG_EMPTY`; in both failure cases the trace records
no engine put. -/
theorem pub_decode_read_bound (maxMsgSize : Nat) (cl : Int)
    (stream stream' : Bytes) (tf : Bool) (env : PubEnv)
    (hcl : cl ≤ (maxMsgSize : Int)) :
    (stream.take (maxMsgSize + 1) = stream'.take (maxMsgSize + 1) →
      NsqdPkg.doPUB maxMsgSize cl stream tf env =
        NsqdPkg.doPUB maxMsgSize cl stream' tf env) ∧
    (maxMsgSize + 1 ≤ stream.length →
      NsqdPkg.doPUB maxMsgSize cl stream tf env =
        (.error ⟨413, "MSG_TOO_BIG"⟩, { Trace.empty with bodyRead := true })) ∧
    NsqdPkg.doPUB maxMsgSize cl [] tf env =
      (.error ⟨400, "MSG_EMPTY"⟩, { Trace.empty with bodyRead := true }) := by
  refine ⟨fun hs => ?_, fun hbig => ?_, ?_⟩
  · simp only [NsqdPkg.doPUB, hs]
  · have hb : (stream.take (maxMsgSize + 1)).length = maxMsgSize + 1 := by
      simp only [List.length_take]
      omega
    simp [NsqdPkg.doPUB, not_lt.mpr hcl, hb]
  · simp [NsqdPkg.doPUB, not_lt.mpr hcl]

/-- Witness for `pub_decode_read_bound` at `maxMsgSize = 2`, an oversized
five-byte stream and `ContentLength = 1`. -/
theorem pub_decode_read_bound_witness :
    NsqdPkg.doPUB 2 1 [97, 98, 99, 100, 101] true ⟨true, none, none, none⟩ =
      (.error ⟨413, "MSG_TOO_BIG"⟩, { Trace.empty with bodyRead := true }) ∧
    NsqdPkg.doPUB 2 1 [] true ⟨true, none, none, none⟩ =
      (.error ⟨400, "MSG_EMPTY"⟩, { Trace.empty with bodyRead := true }) := by
  have h := pub_decode_read_bound 2 1 [97, 98, 99, 100, 101] []
    true ⟨true, none, none, none⟩ (by decide)
  exact ⟨h.2.1 (by decide), h.2.2⟩

/-- C3: in the text sub-format batch decode, a chunk that is empty after
stripping its trailing newline is silently skipped — the loop body consumes
it without emitting a message and without erroring; concretely, the body
`"a\n\nb\n"` publishes exactly the batch `[a, b]` and the body `"\n\n\n"`
publishes a successfully submitted empty batch. -/
theorem text_batch_skips_empty_chunks (maxMsgSize readMax total : Nat)
    (msgs : List Bytes) (h : total + 1 ≠ readMax) :
    mpubBlockStep maxMsgSize readMax total msgs [10] = .ok (total + 1, msgs) ∧
    Server.doMPUB 10 100 5 [97, 10, 10, 98, 10] true ⟨true, none, none, none⟩ =
      (.ok "OK", ⟨true, [], [[[97], [98]]], []⟩) ∧
    Server.doMPUB 10 100 3 [10, 10, 10] true ⟨true, none, none, none⟩ =
      (.ok "OK", ⟨true, [], [[]], []⟩) := by
  refine ⟨?_, rfl, rfl⟩
  simp [mpubBlockStep, h]

/-- Witness for `text_batch_skips_empty_chunks`: one lone newline chunk at
running total 0 with `readMax = 5` is skipped. -/
theorem text_batch_skips_empty_chunks_witness :
    mpubBlockStep 10 5 0 [] [10] = .ok (1, []) :=
  (text_batch_skips_empty_chunks 10 5 0 [] (by decide)).1

/-- C4: in the text sub-format batch decode, a non-empty chunk longer than the
per-message ceiling fails 413 `MSG_TOO_BIG` and cumulative bytes reaching
exactly `maxBodySize + 1` fail 413 `BODY_TOO_BIG`; any decode error makes the
handler return that error with a trace recording no engine call — the partial
batch is discarded, nothing is committed. -/
theorem text_batch_oversize_discards (maxMsgSize maxBodySize : Nat) (cl : Int)
    (stream : Bytes) (env : PubEnv) (e : HErr)
    (hcl : cl ≤ (maxBodySize : Int))
    (hdec : mpubTextDecode maxMsgSize maxBodySize stream = .error e) :
    Server.doMPUB maxMsgSize maxBodySize cl stream true env =
      (.error e, { Trace.empty with bodyRead := true }) ∧
    mpubTextDecode 2 100 [97, 98, 99, 10] = .error ⟨413, "MSG_TOO_BIG"⟩ ∧
    mpubTextDecode 10 3 [97, 98, 10, 99, 100] = .error ⟨413, "BODY_TOO_BIG"⟩ := by
  refine ⟨?_, rfl, rfl⟩
  simp [Server.doMPUB, not_lt.mpr hcl, hdec]

/-- Witness for `text_batch_oversize_discards`: a three-byte message against a
per-message ceiling of 2 aborts the whole batch with `MSG_TOO_BIG`. -/
theorem text_batch_oversize_discards_witness :
    Server.doMPUB 2 100 4 [97, 98, 99, 10] true ⟨true, none, none, none⟩ =
      (.error ⟨413, "MSG_TOO_BIG"⟩, { Trace.empty with bodyRead := true }) :=
  (text_batch_oversize_discards 2 100 4 [97, 98, 99, 10] ⟨true, none, none, none⟩
    ⟨413, "MSG_TOO_BIG"⟩ (by decide) rfl).1

/-- C5 counterexample: the `nsqd`-package `doPUB` has no pre-read
`ContentLength <= 0` check.  A request with an absent declared length
(`ContentLength = -1`) and the non-empty body `[97]` is not rejected
`MSG_EMPTY` at all: the body is read (`bodyRead = true`) and published; and a
zero-declared-length request with an empty body is rejected `MSG_EMPTY` only
after the read call, its trace showing `bodyRead = true`, not the claimed
rejection without reading. -/
theorem nsqd_pub_no_preread_empty_check :
    NsqdPkg.doPUB 10 (-1) [97] true ⟨true, none, none, none⟩ =
      (.ok "OK", ⟨true, [[97]], [], []⟩) ∧
    NsqdPkg.doPUB 10 0 [] true ⟨true, none, none, none⟩ =
      (.error ⟨400, "MSG_EMPTY"⟩, { Trace.empty with bodyRead := true }) ∧
    (NsqdPkg.doPUB 10 0 [] true ⟨true, none, none, none⟩).2.bodyRead = true :=
  ⟨rfl, rfl, rfl⟩

/-- C5 amended: before any body byte is read, the `nsqdserver` handlers
reject a single publish whose declared `ContentLength` exceeds `MaxMsgSize`
with 413 `MSG_TOO_BIG`, a single publish whose declared length is zero or
negative (absent) with 400 `MSG_EMPTY`, and a batch publish whose declared
length exceeds `MaxBodySize` with 413 `BODY_TOO_BIG` — the rejecting trace is
`Trace.empty`, whose `bodyRead` is `false`.  The `nsqd`-package `doPUB` also
rejects an over-ceiling declared length with `MSG_TOO_BIG` before reading,
but has no pre-read empty check: a zero-length body is rejected `MSG_EMPTY`
only after the read call, and an absent or understated declared length does
not prevent the body from being read and, when non-empty and under the
ceiling, published. -/
theorem admission_fast_reject_amended (maxMsgSize maxBodySize : Nat) (cl : Int)
    (stream : Bytes) (tf : Bool) (tn : String) (tp : Int) (env : PubEnv) :
    ((maxMsgSize : Int) < cl →
      Server.doPUB maxMsgSize cl stream tf tn tp env =
        (.error ⟨413, "MSG_TOO_BIG"⟩, .empty)) ∧
    (cl ≤ 0 →
      Server.doPUB maxMsgSize cl stream tf tn tp env =
        (.error ⟨400, "MSG_EMPTY"⟩, .empty)) ∧
    ((maxBodySize : Int) < cl →
      Server.doMPUB maxMsgSize maxBodySize cl stream tf env =
        (.error ⟨413, "BODY_TOO_BIG"⟩, .empty)) ∧
    Trace.empty.bodyRead = false ∧
    ((maxMsgSize : Int) < cl →
      NsqdPkg.doPUB maxMsgSize cl stream tf env =
        (.error ⟨413, "MSG_TOO_BIG"⟩, .empty)) ∧
    (cl ≤ (maxMsgSize : Int) →
      NsqdPkg.doPUB maxMsgSize cl [] tf env =
        (.error ⟨400, "MSG_EMPTY"⟩, { Trace.empty with bodyRead := true })) ∧
    (cl ≤ (maxMsgSize : Int) → stream.length < maxMsgSize + 1 → stream ≠ [] →
      env.putErr = none →
      NsqdPkg.doPUB maxMsgSize cl stream true env =
        (.ok "OK", ⟨true, [stream], [], []⟩)) := by
  refine ⟨fun hbig => ?_, fun hzero => ?_, fun hbody => ?_, rfl, fun hbig => ?_,
    fun hcl => ?_, fun hcl hlt hne hput => ?_⟩
  · simp [Server.doPUB, hbig]
  · have hn : ¬ ((maxMsgSize : Int) < cl) :=
      not_lt.mpr (hzero.trans (Int.natCast_nonneg _))
    simp [Server.doPUB, hn, hzero]
  · simp [Server.doMPUB, hbody]
  · simp [NsqdPkg.doPUB, hbig]
  · simp [NsqdPkg.doPUB, not_lt.mpr hcl]
  · have htake : stream.take (maxMsgSize + 1) = stream :=
      List.take_of_length_le (by omega)
    have hlen : stream.length ≠ maxMsgSize + 1 := by omega
    simp [NsqdPkg.doPUB, not_lt.mpr hcl, htake, hlen, hne, hput]

/-- Witness for `admission_fast_reject_amended` at `MaxMsgSize = 3`,
`MaxBodySize = 5`: declared lengths `9` and `-1` are fast-rejected by the
`nsqdserver` handlers, while the `nsqd`-package `doPUB` reads and publishes
the absent-length one-byte body. -/
theorem admission_fast_reject_amended_witness :
    Server.doPUB 3 9 [97] true "t" 0 ⟨true, none, none, none⟩ =
      (.error ⟨413, "MSG_TOO_BIG"⟩, .empty) ∧
    Server.doPUB 3 (-1) [97] true "t" 0 ⟨true, none, none, none⟩ =
      (.error ⟨400, "MSG_EMPTY"⟩, .empty) ∧
    Server.doMPUB 3 5 9 [97] true ⟨true, none, none, none⟩ =
      (.error ⟨413, "BODY_TOO_BIG"⟩, .empty) ∧
    NsqdPkg.doPUB 3 (-1) [97] true ⟨true, none, none, none⟩ =
      (.ok "OK", ⟨true, [[97]], [], []⟩) := by
  have h := admission_fast_reject_amended 3 5 9 [97] true "t" 0 ⟨true, none, none, none⟩
  have h' := admission_fast_reject_amended 3 5 (-1) [97] true "t" 0 ⟨true, none, none, none⟩
  exact ⟨h.1 (by decide), h'.2.1 (by decide), h.2.2.1 (by decide),
    h'.2.2.2.2.2.2 (by decide) (by decide) (by decide) rfl⟩

/-- C9: for every exit path of the publish handlers, the number of pool
buffers checked out after the handler returns equals the number checked out
before it ran — `doPUB`'s leased buffer, `doMPUB`'s binary-decode buffers and
`doMPUB`'s pooled text reader are each returned exactly once. -/
theorem buffer_pool_balanced (checkedOut leased : Nat) (e1 : PubExit)
    (e2 : MPubTextExit) :
    doPUBPool checkedOut e1 = checkedOut ∧
    doMPUBBinaryPool checkedOut leased = checkedOut ∧
    doMPUBTextPool checkedOut e2 = checkedOut := by
  refine ⟨?_, ?_, ?_⟩
  · cases e1 <;> simp [doPUBPool]
  · simp [doMPUBBinaryPool]
  · cases e2 <;> simp [doMPUBTextPool]

/-- C10: a stats request whose topic filter matches an entry `t` but whose
channel filter matches none of `t`'s channels returns just `[t]`, with `t`'s
complete channel list unchanged — the non-matching channel filter is silently
ignored. -/
theorem stats_channel_filter_ignored_when_unmatched (stats : List TopicStats)
    (tn cn : String) (t : TopicStats)
    (htn : 0 < tn.length) (hcn : 0 < cn.length)
    (ht : stats.find? (fun x => x.topicName = tn) = some t)
    (hc : t.channels.find? (fun c => c.channelName = cn) = none) :
    filterStats tn cn stats = [t] := by
  simp [filterStats, htn, hcn, ht, hc]

/-- Witness for `stats_channel_filter_ignored_when_unmatched`: filtering for
topic `a` and nonexistent channel `z` returns topic `a` with both its
channels. -/
theorem stats_channel_filter_ignored_when_unmatched_witness :
    filterStats "a" "z"
      [⟨"a", 0, 0, 0, [⟨"c1", 1, 2, 3, 4, 5, 6, 7, false⟩,
        ⟨"c2", 0, 0, 0, 0, 0, 0, 0, true⟩]⟩] =
      [⟨"a", 0, 0, 0, [⟨"c1", 1, 2, 3, 4, 5, 6, 7, false⟩,
        ⟨"c2", 0, 0, 0, 0, 0, 0, 0, true⟩]⟩] := by
  exact stats_channel_filter_ignored_when_unmatched _ "a" "z" _
    (by decide) (by decide) (by decide) (by decide)

/-- C1 counterexample: a batch publish (`doMPUB`) on an existing topic whose
ownership lookup answers `false` (`isMaster := false`) still calls the queue
engine's batch put with the decoded batch and never calls the forwarding
collaborator — contradicting the claim that on every publish request a
negative ownership lookup suppresses the local put and triggers exactly one
forward. -/
theorem mpub_ignores_ownership :
    Server.doMPUB 10 100 1 [97] true ⟨false, none, none, none⟩ =
      (.ok "OK", ⟨true, [], [[[97]]], []⟩) ∧
    (Server.doMPUB 10 100 1 [97] true ⟨false, none, none, none⟩).2.fwds = [] ∧
    (Server.doMPUB 10 100 1 [97] true ⟨false, none, none, none⟩).2.putBatches ≠ [] :=
  ⟨rfl, rfl, by decide⟩

/-- C1 amended: for a single-message publish on an existing topic, a negative
ownership lookup suppresses the local put and triggers exactly one forward
carrying the decoded payload unmodified, a failed forward is a 500 carrying
the collaborator's message and a failed local commit a 503 carrying the
engine's message; a batch publish, however, performs no ownership check — it
always calls the engine's batch put with the decoded batch, never forwards,
and surfaces a commit failure as 503 `EXITING`. -/
theorem write_routing_amended (maxMsgSize maxBodySize : Nat) (cl : Int)
    (stream : Bytes) (tn : String) (tp : Int) (env : PubEnv) (e : String)
    (msgs : List Bytes)
    (hpos : 0 < cl) (hcl : cl ≤ (maxMsgSize : Int)) (hne : stream ≠ []) :
    (env.isMaster = false →
      (Server.doPUB maxMsgSize cl stream true tn tp env).2.putMsgs = [] ∧
      (Server.doPUB maxMsgSize cl stream true tn tp env).2.fwds =
        [(tn, tp, stream.take (min stream.length cl.toNat))]) ∧
    (env.isMaster = false → env.fwdErr = some e →
      (Server.doPUB maxMsgSize cl stream true tn tp env).1 = .error ⟨500, e⟩) ∧
    (env.isMaster = true → env.putErr = some e →
      (Server.doPUB maxMsgSize cl stream true tn tp env).1 = .error ⟨503, e⟩) ∧
    (mpubTextDecode maxMsgSize maxBodySize stream = .ok msgs →
      cl ≤ (maxBodySize : Int) →
      (Server.doMPUB maxMsgSize maxBodySize cl stream true env).2.putBatches = [msgs] ∧
      (Server.doMPUB maxMsgSize maxBodySize cl stream true env).2.fwds = [] ∧
      (env.putBatchErr = some e →
        (Server.doMPUB maxMsgSize maxBodySize cl stream true env).1 =
          .error ⟨503, "EXITING"⟩)) := by
  have hlen : 0 < (stream.take (min stream.length cl.toNat)).length := by
    have h1 : 0 < stream.length := List.length_pos.mpr hne
    have h2 : 0 < cl.toNat := by omega
    simp only [List.length_take]
    omega
  have hbody : stream.take (min stream.length cl.toNat) ≠ [] := by
    intro hnil
    rw [hnil] at hlen
    simp at hlen
  refine ⟨fun hm => ?_, fun hm hf => ?_, fun hm hp => ?_, fun hdec hcl2 => ?_⟩
  · cases hf : env.fwdErr <;>
      simp [Server.doPUB, not_lt.mpr hcl, not_le.mpr hpos, hbody, hm, hf]
  · simp [Server.doPUB, not_lt.mpr hcl, not_le.mpr hpos, hbody, hm, hf]
  · simp [Server.doPUB, not_lt.mpr hcl, not_le.mpr hpos, hbody, hm, hp]
  · cases hb : env.putBatchErr <;>
      simp [Server.doMPUB, not_lt.mpr hcl2, hdec, hb]

/-- Witness for `write_routing_amended`: a one-byte single publish on a
non-owned partition forwards `[97]` to `("t", 0)` and surfaces the forward
failure `boom` as a 500; the corresponding batch publish still commits
locally. -/
theorem write_routing_amended_witness :
    (Server.doPUB 10 1 [97] true "t" 0 ⟨false, none, none, some "boom"⟩).2.fwds =
      [("t", 0, [97])] ∧
    (Server.doPUB 10 1 [97] true "t" 0 ⟨false, none, none, some "boom"⟩).1 =
      .error ⟨500, "boom"⟩ ∧
    (Server.doMPUB 10 100 1 [97] true ⟨false, none, none, some "boom"⟩).2.putBatches =
      [[[97]]] := by
  have h := write_routing_amended 10 100 1 [97] "t" 0
    ⟨false, none, none, some "boom"⟩ "boom" [[97]]
    (by decide) (by decide) (by decide)
  exact ⟨(h.1 rfl).2, h.2.1 rfl rfl, (h.2.2.2 rfl (by decide)).1⟩

/-- C6 counterexample: the `nsqdserver` variant's TLS rejection body is the
fixed string `{"message": "TLS_REQUIRED"}` — identical for two different TLS
ports, so it cannot carry the TLS port for redirect. -/
theorem tls_reject_carries_no_port :
    Server.serveHTTP false true 4151 =
      .rejected 403 "\x7b\"message\": \"TLS_REQUIRED\"\x7d" ∧
    Server.serveHTTP false true 4151 = Server.serveHTTP false true 9999 :=
  ⟨rfl, rfl⟩

/-- C6 amended: when TLS is required by policy but not enabled on the serving
listener, both gateway variants reject with 403 `TLS_REQUIRED` before the
router is reached; the `nsqd`-package variant's response carries the TLS port
for redirect, while the `nsqdserver` variant's response carries no port.  A
TLS-enabled listener routes normally. -/
theorem tls_reject_amended (tlsEnabled tlsRequired : Bool) (p : Int)
    (he : tlsEnabled = false) (hr : tlsRequired = true) :
    Server.serveHTTP tlsEnabled tlsRequired p =
      .rejected 403 "\x7b\"message\": \"TLS_REQUIRED\"\x7d" ∧
    NsqdPkg.serveHTTP tlsEnabled tlsRequired p =
      .rejected 403
        ("\x7b\"message\": \"TLS_REQUIRED\", \"https_port\": " ++
          toString p ++ "\x7d") ∧
    Server.serveHTTP tlsEnabled tlsRequired p ≠ .routed ∧
    Server.serveHTTP true tlsRequired p = .routed := by
  subst he hr
  exact ⟨rfl, rfl, by simp [Server.serveHTTP], rfl⟩

/-- Witness for `tls_reject_amended` at TLS port 4151. -/
theorem tls_reject_amended_witness :
    NsqdPkg.serveHTTP false true 4151 =
      .rejected 403
        ("\x7b\"message\": \"TLS_REQUIRED\", \"https_port\": " ++
          toString (4151 : Int) ++ "\x7d") :=
  (tls_reject_amended false true 4151 rfl rfl).2.1

/-- C7: a config PUT with a parseable body for a writable option swaps in a
snapshot differing only in that field, bumps the notification count, and both
the same request and any subsequent read return the new value; a PUT naming
any other option fails `INVALID_OPTION`, and an empty body, a body reaching
`maxMsgSize + 1` limited bytes, or an unparseable body fails `INVALID_VALUE`
— in every failure case the prior state is returned wholly unchanged. -/
theorem config_put_swaps_or_leaves_unchanged (u : Unmarshal) (st : ConfigState)
    (opt : String) (stream : Bytes) (v : Bool) (vi : Int) (vs : List String)
    (hlen : (stream.take (st.opts.maxMsgSize + 1)).length ≠ st.opts.maxMsgSize + 1)
    (hnil : stream.take (st.opts.maxMsgSize + 1) ≠ []) :
    (u.flag (stream.take (st.opts.maxMsgSize + 1)) = some v →
      doConfig u st true "verbose" stream =
        (.ok (.flag v), ⟨{ st.opts with verbose := v }, st.notifications + 1⟩)) ∧
    (u.int (stream.take (st.opts.maxMsgSize + 1)) = some vi →
      doConfig u st true "log_level" stream =
        (.ok (.int vi), ⟨{ st.opts with logLevel := vi }, st.notifications + 1⟩)) ∧
    (u.strs (stream.take (st.opts.maxMsgSize + 1)) = some vs →
      doConfig u st true "nsqlookupd_tcp_addresses" stream =
        (.ok (.strs vs),
          ⟨{ st.opts with nsqlookupdTCPAddresses := vs }, st.notifications + 1⟩)) ∧
    (opt ≠ "nsqlookupd_tcp_addresses" → opt ≠ "verbose" → opt ≠ "log_level" →
      doConfig u st true opt stream = (.error ⟨400, "INVALID_OPTION"⟩, st)) ∧
    doConfig u st true opt [] = (.error ⟨413, "INVALID_VALUE"⟩, st) ∧
    (st.opts.maxMsgSize + 1 ≤ stream.length →
      doConfig u st true opt stream = (.error ⟨413, "INVALID_VALUE"⟩, st)) ∧
    (u.flag (stream.take (st.opts.maxMsgSize + 1)) = none →
      doConfig u st true "verbose" stream = (.error ⟨400, "INVALID_VALUE"⟩, st)) ∧
    doConfig u st false "verbose" stream = (.ok (.flag st.opts.verbose), st) := by
  have hs1 : stream.length < st.opts.maxMsgSize + 1 := by
    have h := hlen
    simp only [List.length_take] at h
    omega
  have hs2 : stream ≠ [] := by
    intro h
    subst h
    simp at hnil
  refine ⟨fun hp => ?_, fun hp => ?_, fun hp => ?_, fun h1 h2 h3 => ?_, ?_,
    fun hfull => ?_, fun hp => ?_, ?_⟩
  · simp [doConfig, getOptByCfgName, hlen, hnil, hp, hs1, hs2]
  · simp [doConfig, getOptByCfgName, hlen, hnil, hp, hs1, hs2]
  · simp [doConfig, getOptByCfgName, hlen, hnil, hp, hs1, hs2]
  · simp [doConfig, hlen, hnil, h1, h2, h3, hs1, hs2]
  · simp [doConfig]
  · have hb : (stream.take (st.opts.maxMsgSize + 1)).length = st.opts.maxMsgSize + 1 := by
      simp only [List.length_take]
      omega
    simp [doConfig, hb]
  · simp [doConfig, hlen, hnil, hp, hs1, hs2]
  · simp [doConfig, getOptByCfgName]

/-- Witness for `config_put_swaps_or_leaves_unchanged`: with a decoder that
parses `t` as the boolean `true`, a PUT of one byte to `verbose` swaps the
snapshot's `verbose` field and notifies once; a PUT to the non-writable
`broadcast_address` leaves the state unchanged. -/
theorem config_put_swaps_or_leaves_unchanged_witness :
    doConfig ⟨fun _ => some ["x"], fun _ => some true, fun _ => some 7⟩
        ⟨⟨[], false, 1, 4, 8, "b"⟩, 0⟩ true "verbose" [116] =
      (.ok (.flag true), ⟨⟨[], true, 1, 4, 8, "b"⟩, 1⟩) ∧
    doConfig ⟨fun _ => some ["x"], fun _ => some true, fun _ => some 7⟩
        ⟨⟨[], false, 1, 4, 8, "b"⟩, 0⟩ true "broadcast_address" [116] =
      (.error ⟨400, "INVALID_OPTION"⟩, ⟨⟨[], false, 1, 4, 8, "b"⟩, 0⟩) := by
  have h := config_put_swaps_or_leaves_unchanged
    ⟨fun _ => some ["x"], fun _ => some true, fun _ => some 7⟩
    ⟨⟨[], false, 1, 4, 8, "b"⟩, 0⟩ "broadcast_address" [116] true 7 ["x"]
    (by decide) (by decide)
  exact ⟨h.1 rfl, h.2.2.2.1 (by decide) (by decide) (by decide)⟩

/-- C8 counterexample: filtering the one-topic snapshot `[a]` by the
non-matching topic name `b` returns the snapshot unchanged — still containing
`a`'s entry and in particular not empty — contradicting the claim that a
non-matching topic filter yields the empty result. -/
theorem stats_nonmatching_topic_keeps_snapshot :
    filterStats "b" "" [⟨"a", 0, 0, 0, []⟩] = [⟨"a", 0, 0, 0, []⟩] ∧
    ([⟨"a", 0, 0, 0, []⟩] : List TopicStats) ≠ [] :=
  ⟨rfl, by decide⟩

/-- C8 amended: a stats request with topic filter `T` matching entry `t`
returns just `[t]`; adding a channel filter matching channel entry `c` of `t`
returns `t` with its channel list reduced to exactly `[c]`, all per-channel
fields being those of the unfiltered snapshot's entry; and when no topic
matches the filter, the full unfiltered snapshot is returned unchanged (not
an error and not an empty result). -/
theorem stats_filtering_amended (stats : List TopicStats) (tn cn : String)
    (t : TopicStats) (c : ChannelStats) (htn : 0 < tn.length) :
    (stats.find? (fun x => x.topicName = tn) = some t → cn = "" →
      filterStats tn cn stats = [t]) ∧
    (0 < cn.length → stats.find? (fun x => x.topicName = tn) = some t →
      t.channels.find? (fun x => x.channelName = cn) = some c →
      filterStats tn cn stats = [{ t with channels := [c] }]) ∧
    (stats.find? (fun x => x.topicName = tn) = none →
      filterStats tn cn stats = stats) := by
  refine ⟨fun ht hcn => ?_, fun hcn ht hc => ?_, fun ht => ?_⟩
  · subst hcn
    simp [filterStats, htn, ht]
  · simp [filterStats, htn, hcn, ht, hc]
  · simp [filterStats, htn, ht]

/-- Witness for `stats_filtering_amended`: filtering a two-topic snapshot for
topic `a` and channel `c2` returns topic `a` alone with exactly its
unfiltered `c2` entry. -/
theorem stats_filtering_amended_witness :
    filterStats "a" "c2"
      [⟨"a", 0, 0, 0, [⟨"c1", 1, 2, 3, 4, 5, 6, 7, false⟩,
        ⟨"c2", 8, 9, 10, 11, 12, 13, 14, true⟩]⟩, ⟨"z", 1, 1, 1, []⟩] =
      [⟨"a", 0, 0, 0, [⟨"c2", 8, 9, 10, 11, 12, 13, 14, true⟩]⟩] := by
  exact (stats_filtering_amended
    [⟨"a", 0, 0, 0, [⟨"c1", 1, 2, 3, 4, 5, 6, 7, false⟩,
      ⟨"c2", 8, 9, 10, 11, 12, 13, 14, true⟩]⟩, ⟨"z", 1, 1, 1, []⟩]
    "a" "c2" ⟨"a", 0, 0, 0, [⟨"c1", 1, 2, 3, 4, 5, 6, 7, false⟩,
      ⟨"c2", 8, 9, 10, 11, 12, 13, 14, true⟩]⟩
    ⟨"c2", 8, 9, 10, 11, 12, 13, 14, true⟩
    (by decide)).2.1 (by decide) (by decide) (by decide)

end NsqGateway
